import Mathlib

/-!
Verification of the double-pendulum simulation core of the repository
(`src/components/DoublePendulum.tsx`).

The physics is embedded over the real numbers: every JavaScript number that
appears in the component is a binary floating-point value, and the algebraic
structure of the integrator (semi-implicit Euler with exponential damping),
the energy bookkeeping and the buffer policies are faithfully mirrored here
with `ℝ` in place of `number`.  The history buffers (trail points, energy
samples) only ever compare and truncate their payloads, so they are embedded
over `ℚ` (every finite JavaScript number is rational), which keeps the buffer
operations computable and their properties decidable on concrete inputs.
-/

namespace DoublePendulum

/-- The dynamic state vector (`interface PendulumState`, lines 11-16):
two angles measured from the downward vertical and two angular velocities. -/
structure PendulumState where
  angle1 : ℝ
  angle2 : ℝ
  velocity1 : ℝ
  velocity2 : ℝ


/-- The physical parameters (`interface PendulumConfig`, lines 18-24). -/
structure PendulumConfig where
  length1 : ℝ
  length2 : ℝ
  mass1 : ℝ
  mass2 : ℝ
  gravity : ℝ


/-- Pivot x coordinate (`const centerX = 400`, line 38). -/
def centerX : ℝ := 400

/-- Pivot y coordinate (`const centerY = 120`, line 39). -/
def centerY : ℝ := 120

/-- Pixel scaling for drawing (`const scale = 1`, line 40). -/
def drawScale : ℝ := 1

/-- Unit conversion (`const metersPerPixel = 0.01`, line 41). -/
def metersPerPixel : ℝ := 0.01

noncomputable section

/-- The first angular acceleration computed inside `updateState`
(lines 134-140 of the source), verbatim:
`(-g(2m1+m2)sin a1 - m2 g sin(a1-2a2) - 2 sin(delta) m2 (w2²L2 + w1²L1 cos delta)) / (L1 den)`
with `delta = a1 - a2` and `den = 2m1 + m2 - m2 cos(2a1 - 2a2)`,
lengths converted to meters by `metersPerPixel`. -/
def a1acc (cfg : PendulumConfig) (s : PendulumState) : ℝ :=
  let L1 := cfg.length1 * metersPerPixel
  let L2 := cfg.length2 * metersPerPixel
  let m1 := cfg.mass1
  let m2 := cfg.mass2
  let a1 := s.angle1
  let a2 := s.angle2
  let w1 := s.velocity1
  let w2 := s.velocity2
  let delta := a1 - a2
  let den := 2 * m1 + m2 - m2 * Real.cos (2 * a1 - 2 * a2)
  (-cfg.gravity * (2 * m1 + m2) * Real.sin a1 -
      m2 * cfg.gravity * Real.sin (a1 - 2 * a2) -
      2 * Real.sin delta * m2 *
        (w2 * w2 * L2 + w1 * w1 * L1 * Real.cos delta)) /
    (L1 * den)

/-- The second angular acceleration computed inside `updateState`
(lines 142-148 of the source), verbatim:
`(2 sin(delta) (w1²L1(m1+m2) + g(m1+m2)cos a1 + w2²L2 m2 cos delta)) / (L2 den)`. -/
def a2acc (cfg : PendulumConfig) (s : PendulumState) : ℝ :=
  let L1 := cfg.length1 * metersPerPixel
  let L2 := cfg.length2 * metersPerPixel
  let m1 := cfg.mass1
  let m2 := cfg.mass2
  let a1 := s.angle1
  let a2 := s.angle2
  let w1 := s.velocity1
  let w2 := s.velocity2
  let delta := a1 - a2
  let den := 2 * m1 + m2 - m2 * Real.cos (2 * a1 - 2 * a2)
  (2 * Real.sin delta *
      (w1 * w1 * L1 * (m1 + m2) +
        cfg.gravity * (m1 + m2) * Real.cos a1 +
        w2 * w2 * L2 * m2 * Real.cos delta)) /
    (L2 * den)

/-- The integration step `updateState` (lines 115-167 of the source).
`enableDamping` and `damping` are the two pieces of damping state
(lines 64-65) that the closure captures.  The body mirrors the source:
velocities are advanced by the accelerations, then, when damping is enabled
and the coefficient is positive, both are multiplied by `exp(-damping*dt)`
(lines 155-159), and the angles are advanced with the resulting velocities
(lines 161-166). -/
def updateState (cfg : PendulumConfig) (enableDamping : Bool) (damping : ℝ)
    (s : PendulumState) (dt : ℝ) : PendulumState :=
  let w1 := s.velocity1
  let w2 := s.velocity2
  let newV1 := w1 + a1acc cfg s * dt
  let newV2 := w2 + a2acc cfg s * dt
  let newV1 :=
    if enableDamping = true ∧ 0 < damping then newV1 * Real.exp (-damping * dt)
    else newV1
  let newV2 :=
    if enableDamping = true ∧ 0 < damping then newV2 * Real.exp (-damping * dt)
    else newV2
  { angle1 := s.angle1 + newV1 * dt
    angle2 := s.angle2 + newV2 * dt
    velocity1 := newV1
    velocity2 := newV2 }

/-- The multiplicative factor the damping stage applies to both updated
velocities: the exact exponential decay when damping is enabled with a
positive coefficient, and `1` otherwise. -/
def dampFactor (enableDamping : Bool) (damping dt : ℝ) : ℝ :=
  if enableDamping = true ∧ 0 < damping then Real.exp (-damping * dt) else 1

/-- Cartesian positions of the two masses (`getPositions`, lines 76-87):
each link is rotated from the vertical, so `x` grows with `sin` and `y`
with `cos` of the angle. -/
def getPositions (cfg : PendulumConfig) (s : PendulumState) : ℝ × ℝ × ℝ × ℝ :=
  let x1 := centerX + cfg.length1 * Real.sin s.angle1 * drawScale
  let y1 := centerY + cfg.length1 * Real.cos s.angle1 * drawScale
  let x2 := x1 + cfg.length2 * Real.sin s.angle2 * drawScale
  let y2 := y1 + cfg.length2 * Real.cos s.angle2 * drawScale
  (x1, y1, x2, y2)

/-- Total mechanical energy (`calculateEnergy`, lines 90-112): kinetic energy
of both masses plus potential energy with the pivot as reference, lengths
converted to meters. -/
def calculateEnergy (cfg : PendulumConfig) (s : PendulumState) : ℝ :=
  let L1 := cfg.length1 * metersPerPixel
  let L2 := cfg.length2 * metersPerPixel
  let ke1 := 0.5 * cfg.mass1 * (L1 * s.velocity1) ^ 2
  let ke2 := 0.5 * cfg.mass2 *
    ((L1 * s.velocity1) ^ 2 + (L2 * s.velocity2) ^ 2 +
      2 * L1 * L2 * s.velocity1 * s.velocity2 * Real.cos (s.angle1 - s.angle2))
  let pe1 := -cfg.mass1 * cfg.gravity * L1 * Real.cos s.angle1
  let pe2 := -cfg.mass2 * cfg.gravity *
    (L1 * Real.cos s.angle1 + L2 * Real.cos s.angle2)
  ke1 + ke2 + pe1 + pe2

/-- JavaScript `Math.atan2(y, x)`: the argument of the complex number
`x + i y`.  The source calls it as `Math.atan2(dx, dy)` so that the result is
an angle measured from the downward vertical, matching the kinematics. -/
def atan2 (y x : ℝ) : ℝ := Complex.arg ⟨x, y⟩

/-- The per-frame `dt` computed by the animation callback (line 173):
`Math.min((currentTime - lastTime) / 1000, 0.016)`. -/
def tickDt (currentTime lastTime : ℝ) : ℝ :=
  min ((currentTime - lastTime) / 1000) 0.016

/-- The state stored by one animation tick (lines 170-202): when the clamped
`dt` is positive the output of the integrator replaces the state unconditionally —
the source contains no finiteness check between `updateState` and `setState` —
and otherwise no step happens (`none`). -/
def animateTickState (cfg : PendulumConfig) (enableDamping : Bool)
    (damping : ℝ) (prev : PendulumState) (currentTime lastTime : ℝ) :
    Option PendulumState :=
  if 0 < tickDt currentTime lastTime then
    some (updateState cfg enableDamping damping prev (tickDt currentTime lastTime))
  else none

end

/-- A trail point (`interface Trail`, lines 26-30).  The payload is embedded
over `ℚ` — every finite JavaScript number is a rational — so the buffer
operations stay computable. -/
structure Trail where
  x : ℚ
  y : ℚ
  timestamp : ℚ
  deriving Repr, DecidableEq

/-- The per-tick operation on either trail buffer (lines 182-191): append the
new point stamped with the current clock value, then keep only the points with
`currentTime - trail.timestamp < 3000`. -/
def trailStep (prev : List Trail) (x y currentTime : ℚ) : List Trail :=
  let newTrails := prev ++ [{ x := x, y := y, timestamp := currentTime }]
  newTrails.filter (fun trail => currentTime - trail.timestamp < 3000)

/-- JavaScript `Array.prototype.slice(-n)` for `n > 0`: the suffix of the
last `n` elements (the whole array when it is shorter than `n`). -/
def sliceLast (l : List ℚ) (n : ℕ) : List ℚ := l.drop (l.length - n)

/-- The per-tick operation on the energy history (lines 195-198): append the
new sample, then `slice(-200)` keeps the most recent 200 samples. -/
def energyStep (prev : List ℚ) (energy : ℚ) : List ℚ :=
  sliceLast (prev ++ [energy]) 200

/-- The energy history produced by appending the given samples one per tick,
starting from the empty history. -/
def energyHistoryAfter (samples : List ℚ) : List ℚ :=
  samples.foldl energyStep []

/-- The two drag targets of the interaction controller (line 72). -/
inductive DragTarget where
  | mass1 : DragTarget
  | mass2 : DragTarget
  deriving Repr, DecidableEq

/-- The pieces of React state one simulation session owns and that the
handlers under verification read or write: the dynamic state, the
configuration, the mass-2 trail buffer (`trails`), the mass-1 trail buffer
(`trails1`), the energy history, the play flag and the drag target
(lines 43-72).  Trail and energy payloads are embedded over `ℚ` as above. -/
structure Session where
  state : PendulumState
  config : PendulumConfig
  trails : List Trail
  trails1 : List Trail
  energyHistory : List ℚ
  isPlaying : Bool
  dragging : Option DragTarget

noncomputable section

/-- The reset handler (`handleReset`, lines 404-415): stop playback, restore
the initial state `{π/2, π/2, 0, 0}` and clear `trails`, `energyHistory` and
`trails1`.  The configuration is not touched. -/
def handleReset (s : Session) : Session :=
  { s with
    isPlaying := false
    state := { angle1 := Real.pi / 2, angle2 := Real.pi / 2,
               velocity1 := 0, velocity2 := 0 }
    trails := []
    energyHistory := []
    trails1 := [] }

/-- The randomize handler (`handleRandomize`, lines 417-424) with the two
values drawn from `Math.random()` made explicit: each angle receives its own
offset `(r - 0.5) * 0.1`; everything else is spread unchanged. -/
def handleRandomize (s : Session) (r1 r2 : ℝ) : Session :=
  { s with
    state := { s.state with
      angle1 := s.state.angle1 + (r1 - 0.5) * 0.1
      angle2 := s.state.angle2 + (r2 - 0.5) * 0.1 } }

/-- The pointer-move handler (`handlePointerMove`, lines 342-372) at
canvas coordinates `(x, y)`: no drag means no change; dragging mass 1 sets
`angle1` from the fixed pivot toward the pointer, zeroes both velocities and
clears `trails` (the mass-2 buffer); dragging mass 2 sets `angle2` from the
current joint-1 position toward the pointer, zeroes both velocities and
clears `trails`. -/
def handlePointerMove (s : Session) (x y : ℝ) : Session :=
  match s.dragging with
  | none => s
  | some DragTarget.mass1 =>
      let newAngle1 := atan2 (x - centerX) (y - centerY)
      { s with
        state := { s.state with
          angle1 := newAngle1, velocity1 := 0, velocity2 := 0 }
        trails := [] }
  | some DragTarget.mass2 =>
      let p := getPositions s.config s.state
      let x1 := p.1
      let y1 := p.2.1
      let newAngle2 := atan2 (x - x1) (y - y1)
      { s with
        state := { s.state with
          angle2 := newAngle2, velocity1 := 0, velocity2 := 0 }
        trails := [] }

/-- The initial dynamic state (lines 48-53): both angles at `π/2`, both
velocities zero. -/
def initialState : PendulumState :=
  { angle1 := Real.pi / 2, angle2 := Real.pi / 2, velocity1 := 0, velocity2 := 0 }

/-- The default configuration (lines 55-61). -/
def defaultConfig : PendulumConfig :=
  { length1 := 150, length2 := 150, mass1 := 10, mass2 := 10, gravity := 9.81 }

/-- A force-injected invalid configuration with a zero first link length:
the acceleration formulas divide by `L1 * den = 0` on it.  Used to exhibit
that the animation loop stores whatever the integrator returns. -/
def zeroLenConfig : PendulumConfig :=
  { length1 := 0, length2 := 150, mass1 := 10, mass2 := 10, gravity := 9.81 }

end

/- ## Theorems -/

section Theorems

/-- C10: for every state, every configuration with positive lengths and
masses, and either damping setting, the integration step with `dt = 0` is the
identity on angles and velocities: every `dt`-proportional increment vanishes
and the damping factor `exp(-damping*0) = 1`. -/
theorem updateState_dt_zero_identity (cfg : PendulumConfig)
    (enableDamping : Bool) (damping : ℝ) (s : PendulumState)
    (hL1 : 0 < cfg.length1) (hL2 : 0 < cfg.length2)
    (hm1 : 0 < cfg.mass1) (hm2 : 0 < cfg.mass2) :
    (updateState cfg enableDamping damping s 0).angle1 = s.angle1 ∧
    (updateState cfg enableDamping damping s 0).angle2 = s.angle2 ∧
    (updateState cfg enableDamping damping s 0).velocity1 = s.velocity1 ∧
    (updateState cfg enableDamping damping s 0).velocity2 = s.velocity2 := by
  unfold updateState
  split_ifs with h <;>
    simp [mul_zero, add_zero, Real.exp_zero, mul_one]

/-- Witness for C10 at the default configuration and initial state. -/
theorem updateState_dt_zero_identity_witness :
    (0 : ℝ) < defaultConfig.length1 ∧
    ((updateState defaultConfig false (1/20) initialState 0).angle1 =
        initialState.angle1 ∧
      (updateState defaultConfig false (1/20) initialState 0).angle2 =
        initialState.angle2 ∧
      (updateState defaultConfig false (1/20) initialState 0).velocity1 =
        initialState.velocity1 ∧
      (updateState defaultConfig false (1/20) initialState 0).velocity2 =
        initialState.velocity2) :=
  ⟨by norm_num [defaultConfig],
    updateState_dt_zero_identity defaultConfig false (1/20) initialState
      (by norm_num [defaultConfig]) (by norm_num [defaultConfig])
      (by norm_num [defaultConfig]) (by norm_num [defaultConfig])⟩

/-- C6: the reset handler produces angles `π/2`, zero velocities and empty
trail and energy buffers, independently of every prior state, and it is
idempotent. -/
theorem handleReset_spec (s : Session) :
    (handleReset s).state.angle1 = Real.pi / 2 ∧
    (handleReset s).state.angle2 = Real.pi / 2 ∧
    (handleReset s).state.velocity1 = 0 ∧
    (handleReset s).state.velocity2 = 0 ∧
    (handleReset s).trails = [] ∧
    (handleReset s).trails1 = [] ∧
    (handleReset s).energyHistory = [] ∧
    handleReset (handleReset s) = handleReset s := by
  refine ⟨rfl, rfl, rfl, rfl, rfl, rfl, rfl, rfl⟩

/-- C8: with both draws from the random source in `[0, 1)`, randomize adds to
each angle its own offset `(r - 0.5) * 0.1`, which lies in
`[-0.05, 0.05]`, and leaves velocities, both trail buffers and the energy
history unchanged. -/
theorem handleRandomize_spec (s : Session) (r1 r2 : ℝ)
    (h1 : 0 ≤ r1) (h1' : r1 < 1) (h2 : 0 ≤ r2) (h2' : r2 < 1) :
    (handleRandomize s r1 r2).state.angle1 =
        s.state.angle1 + (r1 - 0.5) * 0.1 ∧
    (handleRandomize s r1 r2).state.angle2 =
        s.state.angle2 + (r2 - 0.5) * 0.1 ∧
    (-0.05 ≤ (r1 - 0.5) * 0.1 ∧ (r1 - 0.5) * 0.1 ≤ 0.05) ∧
    (-0.05 ≤ (r2 - 0.5) * 0.1 ∧ (r2 - 0.5) * 0.1 ≤ 0.05) ∧
    (handleRandomize s r1 r2).state.velocity1 = s.state.velocity1 ∧
    (handleRandomize s r1 r2).state.velocity2 = s.state.velocity2 ∧
    (handleRandomize s r1 r2).trails = s.trails ∧
    (handleRandomize s r1 r2).trails1 = s.trails1 ∧
    (handleRandomize s r1 r2).energyHistory = s.energyHistory := by
  refine ⟨rfl, rfl, ⟨by nlinarith, by nlinarith⟩, ⟨by nlinarith, by nlinarith⟩,
    rfl, rfl, rfl, rfl, rfl⟩

/-- Witness for C8: both random draws equal to `1/2` on a fresh session. -/
theorem handleRandomize_spec_witness :
    ((0 : ℝ) ≤ 1/2 ∧ (1/2 : ℝ) < 1) ∧
    (-0.05 ≤ ((1/2 : ℝ) - 0.5) * 0.1 ∧ ((1/2 : ℝ) - 0.5) * 0.1 ≤ 0.05) ∧
    (handleRandomize
        { state := initialState, config := defaultConfig, trails := [],
          trails1 := [], energyHistory := [], isPlaying := false,
          dragging := none } (1/2) (1/2)).state.velocity1 =
      initialState.velocity1 :=
  ⟨⟨by norm_num, by norm_num⟩,
    (handleRandomize_spec
      { state := initialState, config := defaultConfig, trails := [],
        trails1 := [], energyHistory := [], isPlaying := false,
        dragging := none } (1/2) (1/2)
      (by norm_num) (by norm_num) (by norm_num) (by norm_num)).2.2.1,
    (handleRandomize_spec
      { state := initialState, config := defaultConfig, trails := [],
        trails1 := [], energyHistory := [], isPlaying := false,
        dragging := none } (1/2) (1/2)
      (by norm_num) (by norm_num) (by norm_num) (by norm_num)).2.2.2.2.1⟩

/-- C9: whenever an animation tick hands a `dt` to the integration step, that
`dt` is the frame time clamped from above to `0.016 ≤ 1/60` seconds and is
strictly positive; the stored state is exactly the output of the integrator at
that clamped `dt`. -/
theorem animateTick_dt_clamped (cfg : PendulumConfig) (enableDamping : Bool)
    (damping : ℝ) (prev : PendulumState) (currentTime lastTime : ℝ)
    (s' : PendulumState)
    (h : animateTickState cfg enableDamping damping prev currentTime lastTime =
      some s') :
    s' = updateState cfg enableDamping damping prev
        (tickDt currentTime lastTime) ∧
    0 < tickDt currentTime lastTime ∧
    tickDt currentTime lastTime ≤ 1/60 := by
  unfold animateTickState at h
  split_ifs at h with hpos
  · refine ⟨(Option.some_injective _ h).symm, hpos, ?_⟩
    calc tickDt currentTime lastTime ≤ 0.016 := min_le_right _ _
      _ ≤ 1/60 := by norm_num

/-- Witness for C9: a 16 ms frame starting at clock 0. -/
theorem animateTick_dt_clamped_witness :
    animateTickState defaultConfig false (1/20) initialState 16 0 =
      some (updateState defaultConfig false (1/20) initialState (tickDt 16 0)) ∧
    (0 < tickDt 16 0 ∧ tickDt 16 0 ≤ 1/60) :=
  have h : animateTickState defaultConfig false (1/20) initialState 16 0 =
      some (updateState defaultConfig false (1/20) initialState
        (tickDt 16 0)) := by
    unfold animateTickState tickDt
    norm_num
  ⟨h, ((animateTick_dt_clamped defaultConfig false (1/20) initialState 16 0 _
      h).2)⟩

/-- C3 (supporting theorem for the missing guard): whenever the clamped frame
time is positive, the animation tick stores exactly the output of the
integrator, unconditionally — there is no finiteness check between
`updateState` and `setState` in the source, so a non-finite result would
become the current state and be handed to the renderer. -/
theorem animateTick_stores_unconditionally (cfg : PendulumConfig)
    (enableDamping : Bool) (damping : ℝ) (prev : PendulumState)
    (currentTime lastTime : ℝ)
    (h : 0 < tickDt currentTime lastTime) :
    animateTickState cfg enableDamping damping prev currentTime lastTime =
      some (updateState cfg enableDamping damping prev
        (tickDt currentTime lastTime)) := by
  unfold animateTickState
  exact if_pos h

/-- Witness for C3: the force-injected configuration with `length1 = 0`, on
which the acceleration formulas divide by zero, is integrated and stored like
any other. -/
theorem animateTick_stores_unconditionally_witness :
    0 < tickDt 16 0 ∧
    animateTickState zeroLenConfig false (1/20) initialState 16 0 =
      some (updateState zeroLenConfig false (1/20) initialState (tickDt 16 0)) :=
  have h : 0 < tickDt 16 0 := by unfold tickDt; norm_num
  ⟨h, animateTick_stores_unconditionally zeroLenConfig false (1/20)
    initialState 16 0 h⟩

/-- C4: the per-tick trail operation keeps exactly the points of the appended
buffer whose age `currentTime - timestamp` is below 3000 ms — membership in
the result is equivalent to membership in the appended buffer together with
age `< 3000` — the survivors keep their relative order (the result is a
sublist of the appended buffer), and the newly appended point, of age zero,
is always retained. -/
theorem trailStep_window (prev : List Trail) (x y currentTime : ℚ) :
    (∀ t : Trail,
      t ∈ trailStep prev x y currentTime ↔
        (t ∈ prev ++ [{ x := x, y := y, timestamp := currentTime }] ∧
          currentTime - t.timestamp < 3000)) ∧
    List.Sublist (trailStep prev x y currentTime)
      (prev ++ [{ x := x, y := y, timestamp := currentTime }]) ∧
    ({ x := x, y := y, timestamp := currentTime } : Trail) ∈
      trailStep prev x y currentTime := by
  refine ⟨fun t => ?_, List.filter_sublist _, ?_⟩
  · simp only [trailStep, List.mem_filter, List.mem_append,
      List.mem_singleton, decide_eq_true_eq]
  · simp [trailStep, List.mem_filter]

/-- Appending one more sample to the history folds through one `energyStep`. -/
theorem energyHistoryAfter_snoc (samples : List ℚ) (e : ℚ) :
    energyHistoryAfter (samples ++ [e]) =
      energyStep (energyHistoryAfter samples) e := by
  simp [energyHistoryAfter, List.foldl_append]

/-- Truncating to the last 200, appending one element and truncating again is
the same as truncating the appended list once. -/
theorem sliceLast_append_single (l : List ℚ) (e : ℚ) :
    sliceLast (sliceLast l 200 ++ [e]) 200 = sliceLast (l ++ [e]) 200 := by
  unfold sliceLast
  rcases le_or_lt l.length 200 with h | h
  · rw [Nat.sub_eq_zero_of_le h, List.drop_zero]
  · have hlen : (l.drop (l.length - 200)).length = 200 := by
      rw [List.length_drop]; omega
    rw [List.length_append, List.length_append, hlen]
    have h1 : (200 + [e].length - 200 : ℕ) = 1 := by simp
    have h2 : (l.length + [e].length - 200 : ℕ) = (l.length - 200) + 1 := by
      simp only [List.length_singleton]
      omega
    rw [h1, h2]
    rw [List.drop_append_of_le_length (by omega : 1 ≤ (l.drop (l.length - 200)).length),
      List.drop_append_of_le_length (by omega : l.length - 200 + 1 ≤ l.length),
      List.drop_drop]

/-- C5: after appending `n` energy samples one per tick to an initially empty
history, the history is exactly the suffix of the most recent
`min n 200` samples: oldest samples are dropped first and the relative order
of survivors is preserved (the history is a suffix of the sample sequence),
and its length never exceeds 200. -/
theorem energyHistoryAfter_capacity (samples : List ℚ) :
    energyHistoryAfter samples = sliceLast samples 200 ∧
    (energyHistoryAfter samples).length = min samples.length 200 ∧
    List.IsSuffix (energyHistoryAfter samples) samples := by
  have key : ∀ l : List ℚ, energyHistoryAfter l = sliceLast l 200 := by
    intro l
    induction l using List.reverseRecOn with
    | nil => rfl
    | append_singleton l e ih =>
        rw [energyHistoryAfter_snoc, ih]
        unfold energyStep
        exact sliceLast_append_single l e
  refine ⟨key samples, ?_, ?_⟩
  · rw [key samples]; unfold sliceLast; rw [List.length_drop]; omega
  · rw [key samples]; exact List.drop_suffix _ _

/-- C7: while dragging mass 1, a pointer move to canvas position `(x, y)`
sets `angle1` to `atan2(x - pivotX, y - pivotY)`, zeroes both velocities and
clears the mass-2 trail buffer, while `angle2`, the mass-1 trail buffer, the
energy history and the configuration are unchanged. -/
theorem handlePointerMove_mass1_spec (s : Session) (x y : ℝ)
    (h : s.dragging = some DragTarget.mass1) :
    (handlePointerMove s x y).state.angle1 =
        atan2 (x - centerX) (y - centerY) ∧
    (handlePointerMove s x y).state.velocity1 = 0 ∧
    (handlePointerMove s x y).state.velocity2 = 0 ∧
    (handlePointerMove s x y).state.angle2 = s.state.angle2 ∧
    (handlePointerMove s x y).trails = [] ∧
    (handlePointerMove s x y).trails1 = s.trails1 ∧
    (handlePointerMove s x y).energyHistory = s.energyHistory ∧
    (handlePointerMove s x y).config = s.config := by
  simp [handlePointerMove, h]

/-- Witness for C7: a session dragging mass 1, pointer at `(500, 300)`. -/
theorem handlePointerMove_mass1_spec_witness :
    ({ state := initialState, config := defaultConfig, trails := [],
        trails1 := [], energyHistory := [], isPlaying := false,
        dragging := some DragTarget.mass1 } : Session).dragging =
      some DragTarget.mass1 ∧
    (handlePointerMove
        { state := initialState, config := defaultConfig, trails := [],
          trails1 := [], energyHistory := [], isPlaying := false,
          dragging := some DragTarget.mass1 } 500 300).state.angle1 =
      atan2 (500 - centerX) (300 - centerY) ∧
    (handlePointerMove
        { state := initialState, config := defaultConfig, trails := [],
          trails1 := [], energyHistory := [], isPlaying := false,
          dragging := some DragTarget.mass1 } 500 300).state.velocity1 = 0 :=
  ⟨rfl,
    (handlePointerMove_mass1_spec
      { state := initialState, config := defaultConfig, trails := [],
        trails1 := [], energyHistory := [], isPlaying := false,
        dragging := some DragTarget.mass1 } 500 300 rfl).1,
    (handlePointerMove_mass1_spec
      { state := initialState, config := defaultConfig, trails := [],
        trails1 := [], energyHistory := [], isPlaying := false,
        dragging := some DragTarget.mass1 } 500 300 rfl).2.1⟩

/-- For a positive decay rate and a positive step the exact exponential decay
factor differs from its first-order approximation. -/
theorem exp_neg_ne_one_sub (c dt : ℝ) (hc : 0 < c) (hdt : 0 < dt) :
    Real.exp (-c * dt) ≠ 1 - c * dt := by
  have hne : -c * dt ≠ 0 := by
    have : 0 < c * dt := mul_pos hc hdt
    intro h0
    nlinarith
  have hgt := Real.add_one_lt_exp hne
  intro heq
  rw [heq] at hgt
  nlinarith

/-- C1: the integration step is semi-implicit Euler with exact exponential
damping: each velocity is advanced by its angular acceleration times `dt` and
then multiplied by the damping factor, which is `exp(-coefficient*dt)` exactly
when damping is enabled with a positive coefficient and `1` otherwise; each
angle is then advanced using the updated, post-damping velocity.  The factor
is the exact exponential: for positive coefficient and step it differs from
the first-order approximation `1 - coefficient*dt`. -/
theorem updateState_semiImplicitEuler (cfg : PendulumConfig)
    (enableDamping : Bool) (damping : ℝ) (s : PendulumState) (dt : ℝ) :
    (updateState cfg enableDamping damping s dt).velocity1 =
        (s.velocity1 + a1acc cfg s * dt) *
          dampFactor enableDamping damping dt ∧
    (updateState cfg enableDamping damping s dt).velocity2 =
        (s.velocity2 + a2acc cfg s * dt) *
          dampFactor enableDamping damping dt ∧
    (updateState cfg enableDamping damping s dt).angle1 =
        s.angle1 + (updateState cfg enableDamping damping s dt).velocity1 * dt ∧
    (updateState cfg enableDamping damping s dt).angle2 =
        s.angle2 + (updateState cfg enableDamping damping s dt).velocity2 * dt ∧
    (enableDamping = true ∧ 0 < damping →
        dampFactor enableDamping damping dt = Real.exp (-damping * dt)) ∧
    (¬(enableDamping = true ∧ 0 < damping) →
        dampFactor enableDamping damping dt = 1) ∧
    (0 < damping → 0 < dt → Real.exp (-damping * dt) ≠ 1 - damping * dt) := by
  have hv1 : (updateState cfg enableDamping damping s dt).velocity1 =
      (s.velocity1 + a1acc cfg s * dt) * dampFactor enableDamping damping dt := by
    simp only [updateState, dampFactor]
    split_ifs with h <;> ring
  have hv2 : (updateState cfg enableDamping damping s dt).velocity2 =
      (s.velocity2 + a2acc cfg s * dt) * dampFactor enableDamping damping dt := by
    simp only [updateState, dampFactor]
    split_ifs with h <;> ring
  refine ⟨hv1, hv2, rfl, rfl, fun h => ?_, fun h => ?_,
    exp_neg_ne_one_sub damping dt⟩
  · unfold dampFactor
    exact if_pos h
  · unfold dampFactor
    exact if_neg h

/-- Witness for C1 with damping enabled, coefficient 1 and step 1. -/
theorem updateState_semiImplicitEuler_witness :
    ((true : Bool) = true ∧ (0 : ℝ) < 1) ∧
    dampFactor true 1 1 = Real.exp (-(1 : ℝ) * 1) ∧
    Real.exp (-(1 : ℝ) * 1) ≠ 1 - 1 * 1 ∧
    (updateState defaultConfig true 1 initialState 1).velocity1 =
      (initialState.velocity1 + a1acc defaultConfig initialState * 1) *
        dampFactor true 1 1 :=
  have h := updateState_semiImplicitEuler defaultConfig true 1 initialState 1
  ⟨⟨rfl, by norm_num⟩, h.2.2.2.2.1 ⟨rfl, by norm_num⟩,
    h.2.2.2.2.2.2 (by norm_num) (by norm_num), h.1⟩

/-- A damping-disabled integration step in closed form: the `if` branch of
`updateState` is not taken, so each velocity is advanced by its acceleration
and each angle by its updated velocity. -/
theorem updateState_noDamping (cfg : PendulumConfig) (damping : ℝ)
    (s : PendulumState) (dt : ℝ) :
    updateState cfg false damping s dt =
      { angle1 := s.angle1 + (s.velocity1 + a1acc cfg s * dt) * dt
        angle2 := s.angle2 + (s.velocity2 + a2acc cfg s * dt) * dt
        velocity1 := s.velocity1 + a1acc cfg s * dt
        velocity2 := s.velocity2 + a2acc cfg s * dt } := by
  simp [updateState]

/-- At the symmetric initial state both angle differences vanish, so the
`sin(delta)` factor annihilates the whole second acceleration formula. -/
theorem a2acc_initialState : a2acc defaultConfig initialState = 0 := by
  simp [a2acc, initialState, defaultConfig, sub_self, Real.sin_zero]

/-- The first closed-form angular acceleration at the default configuration
and the symmetric initial state evaluates to exactly `-6.54`. -/
theorem a1acc_initialState : a1acc defaultConfig initialState = -6.54 := by
  have h1 : Real.pi / 2 - 2 * (Real.pi / 2) = -(Real.pi / 2) := by ring
  have h2 : 2 * (Real.pi / 2) - 2 * (Real.pi / 2) = (0 : ℝ) := by ring
  have h3 : Real.pi / 2 - Real.pi / 2 = (0 : ℝ) := by ring
  simp only [a1acc, initialState, defaultConfig, metersPerPixel]
  rw [h1, h2, h3]
  simp [Real.sin_pi_div_two, Real.sin_neg, Real.sin_zero, Real.cos_zero]
  norm_num

/-- C2 counterexample: at the configuration
`{length1=150, length2=150, mass1=10, mass2=10, gravity=9.81}` with damping
disabled, one integration step of `dt = 0.016` from the state
`{π/2, π/2, 0, 0}` leaves `angle2` exactly at `π/2`: its deviation is zero,
not a nonzero sign-determinate amount, because the closed-form second angular
acceleration vanishes at the symmetric state. -/
theorem updateState_scenario_angle2_unchanged :
    (updateState defaultConfig false 0.05 initialState 0.016).angle2 =
      Real.pi / 2 := by
  rw [updateState_noDamping, a2acc_initialState]
  show initialState.angle2 + (initialState.velocity2 + 0 * 0.016) * 0.016 =
    Real.pi / 2
  rw [show initialState.velocity2 = 0 from rfl,
    show initialState.angle2 = Real.pi / 2 from rfl]
  ring

/-- C2 amended: one `dt = 0.016` step from `{π/2, π/2, 0, 0}` at the default
configuration with damping disabled moves `angle1` by exactly the closed-form
prediction `a1acc * dt² = -6.54 * 0.016 * 0.016`, a nonzero, strictly negative
deviation, while `angle2` stays exactly at `π/2` since the closed-form second
acceleration is zero there. -/
theorem updateState_scenario_step_values :
    a1acc defaultConfig initialState = -6.54 ∧
    a2acc defaultConfig initialState = 0 ∧
    (updateState defaultConfig false 0.05 initialState 0.016).angle1 =
      Real.pi / 2 + (-6.54) * 0.016 * 0.016 ∧
    (updateState defaultConfig false 0.05 initialState 0.016).angle1 <
      Real.pi / 2 ∧
    (updateState defaultConfig false 0.05 initialState 0.016).velocity1 =
      (-6.54) * 0.016 ∧
    (updateState defaultConfig false 0.05 initialState 0.016).velocity2 = 0 ∧
    (updateState defaultConfig false 0.05 initialState 0.016).angle2 =
      Real.pi / 2 := by
  have hstep := updateState_noDamping defaultConfig 0.05 initialState 0.016
  rw [a1acc_initialState, a2acc_initialState] at hstep
  have hang1 : initialState.angle1 = Real.pi / 2 := rfl
  have hang2 : initialState.angle2 = Real.pi / 2 := rfl
  have hvel1 : initialState.velocity1 = 0 := rfl
  have hvel2 : initialState.velocity2 = 0 := rfl
  rw [hang1, hang2, hvel1, hvel2] at hstep
  rw [hstep]
  refine ⟨a1acc_initialState, a2acc_initialState, by ring, ?_, by ring,
    by ring, by ring⟩
  have hneg : ((0 : ℝ) + -6.54 * 0.016) * 0.016 < 0 := by norm_num
  show Real.pi / 2 + (0 + -6.54 * 0.016) * 0.016 < Real.pi / 2
  linarith

end Theorems

end DoublePendulum
